import Mathlib

/-!
Verification development for the FilmyBuddy media tracker
(src/filmybuddy.py, the "Robust Edition" iteration).

The core under scrutiny is the TMDb match resolver `get_tmdb_data`
(strict pass over the provider result list, then a fallback on the head
of the list), the recommendations fetcher `get_tmdb_recommendations`,
the cache-clearing utility `clear_caches`, and the add-movie form
submit handler (validation plus row append plus cache invalidation).

Modelling conventions:
- Python `None`-able string fields and `dict.get` lookups are `Option String`
  (`none` = key absent or value `None`).
- Python truthiness of an optional string is `pyTruthy` (absent or empty
  is falsy).
- The HTTP search call (`requests.get(...).json()`) is a parameter
  `provider : Option (List Candidate)`: `none` models a
  `requests.RequestException` raised during the call (the `except` branch,
  lines 86-89); `some results` models a parsed response whose
  `resp.get("results", [])` field is `results` (a response without a
  `results` key is `some []`).
- Python string primitives are modelled characterwise so that concrete
  evaluation is kernel-reducible: `s[:4]` is `take4`, `s.strip()` is
  `pyStrip` (ASCII whitespace), `s.upper()` is `pyUpper` (ASCII case),
  `re.sub(r"\D", "", s)` is `stripDigits`.
-/

namespace FilmyBuddy

/-- Python truthiness of an optional string: `None` and the empty string
are falsy, every other string is truthy. -/
def pyTruthy : Option String → Bool
  | none => false
  | some s => s != ""

/-- Python `a or b` on optional strings: returns `a` when truthy,
otherwise `b` (which may itself be `None`). -/
def pyOr (a b : Option String) : Option String :=
  if pyTruthy a then a else b

/-- Python `(a or b or "")` collapsed to a plain string. -/
def orEmpty (a b : Option String) : String :=
  (pyOr a b).getD ""

/-- Python slice `s[:4]`: the first four characters. -/
def take4 (s : String) : String :=
  String.mk (s.data.take 4)

/-- Python `s.strip()`: drop whitespace from both ends. -/
def pyStrip (s : String) : String :=
  String.mk (((s.data.dropWhile Char.isWhitespace).reverse.dropWhile
    Char.isWhitespace).reverse)

/-- Python `s.upper()` on the ASCII strings the app handles. -/
def pyUpper (s : String) : String :=
  String.mk (s.data.map Char.toUpper)

/-- Python `re.sub(r"\D", "", s)`: keep only the digit characters. -/
def stripDigits (s : String) : String :=
  String.mk (s.data.filter Char.isDigit)

/-- One provider result entry (search or recommendations), with the
fields the app reads.  `none` models an absent key / JSON null. -/
structure Candidate where
  media_type : Option String
  title : Option String
  name : Option String
  release_date : Option String
  first_air_date : Option String
  original_language : Option String
  poster_path : Option String
  deriving Repr, DecidableEq

/-- The dictionary returned by `get_tmdb_data` on acceptance: the
accepted candidate plus the three `normalized_*` keys the function adds
(lines 130-132 and 139-141). -/
structure Resolved where
  cand : Candidate
  normalized_title : Option String
  normalized_year : String
  normalized_type : Option String
  deriving Repr, DecidableEq

/-- The search request parameters `get_tmdb_data` sends to the provider:
the `query` entry and the optional `year` entry of `params`
(lines 80-84). -/
structure SearchRequest where
  query : String
  yearParam : Option String
  deriving Repr, DecidableEq

/-- Line 78: `year = str(year).strip() if year else None`. -/
def stripYear : Option String → Option String
  | none => none
  | some y => if y == "" then none else some (pyStrip y)

/-- Line 83: `len(year) == 4 and year.isdigit()` (the app only ever
meets ASCII digits; Python `isdigit` coincides there). -/
def isValidYear (y : String) : Bool :=
  y.length == 4 && y.data.all Char.isDigit

/-- Lines 77-84: the `params` dict for the `/search/multi` call.
`query` is the stripped title; `year` is included only when the stripped
year is a valid 4-digit string. -/
def searchRequest (title : String) (year : Option String) : SearchRequest :=
  { query := pyStrip title
    yearParam :=
      match stripYear year with
      | some y => if isValidYear y then some y else none
      | none => none }

/-- The network request `get_tmdb_data` issues, when it issues one:
line 74 returns before any request when the API key is missing;
otherwise control reaches the `requests.get` at line 87 unconditionally. -/
def get_tmdb_data_request (apiKey : Bool) (title : String)
    (year : Option String) : Option SearchRequest :=
  if !apiKey then none else some (searchRequest title year)

/-- Lines 100/103: the candidate year used by the strict pass, the first
four characters of `release_date` (movie) or `first_air_date` (tv),
with `""` for an absent field. -/
def candYear (r : Candidate) : String :=
  if r.media_type == some "movie" then take4 (r.release_date.getD "")
  else take4 (r.first_air_date.getD "")

/-- Line 116: `if year and r_year != year: continue` — the year filter
blocks the candidate. -/
def yearBlocks (year : Option String) (r_year : String) : Bool :=
  match year with
  | some y => y != "" && r_year != y
  | none => false

/-- Lines 120-123: `if language:` then compare the uppercased candidate
`original_language` against `language.upper().strip()`. -/
def langBlocks (language : Option String) (r : Candidate) : Bool :=
  match language with
  | some l => l != "" && pyUpper (r.original_language.getD "") != pyStrip (pyUpper l)
  | none => false

/-- Lines 94-127: the strict-pass acceptance test for one candidate.
Each conjunct is the negation of one `continue` in the loop body:
not a movie nor tv entry (line 106), type mismatch (lines 109-112),
year mismatch (line 116), language mismatch (lines 120-123),
missing poster (line 126). -/
def strictAccept (media_type : String) (year language : Option String)
    (r : Candidate) : Bool :=
  (r.media_type == some "movie" || r.media_type == some "tv") &&
  !((media_type == "Movie" || media_type == "Documentary") &&
      !(r.media_type == some "movie")) &&
  !((media_type == "Show" || media_type == "Anime") &&
      !(r.media_type == some "tv")) &&
  !(yearBlocks year (candYear r)) &&
  !(langBlocks language r) &&
  pyTruthy r.poster_path

/-- Lines 129-134: normalization the strict pass performs on the
accepted candidate.  `r_title`/`r_year` come from the movie or tv branch
(lines 99-104); `normalized_type` is the raw `media_type` value. -/
def strictNormalize (r : Candidate) : Resolved :=
  if r.media_type == some "movie" then
    { cand := r
      normalized_title := some (r.title.getD "")
      normalized_year := take4 (r.release_date.getD "")
      normalized_type := r.media_type }
  else
    { cand := r
      normalized_title := some (r.name.getD "")
      normalized_year := take4 (r.first_air_date.getD "")
      normalized_type := r.media_type }

/-- Lines 94-134: the strict pass, scanning provider results in order
and returning the first accepted candidate, normalized. -/
def strictScan (media_type : String) (year language : Option String) :
    List Candidate → Option Resolved
  | [] => none
  | r :: rest =>
    if strictAccept media_type year language r then some (strictNormalize r)
    else strictScan media_type year language rest

/-- Lines 138-141: normalization applied in the fallback branch.
`normalized_title` is the Python `title or name` (possibly `None`);
`normalized_year` is `(release_date or first_air_date or "")[:4]`;
`normalized_type` is again the raw `media_type` value. -/
def fallbackNormalize (r : Candidate) : Resolved :=
  { cand := r
    normalized_title := pyOr r.title r.name
    normalized_year := take4 (orEmpty r.release_date r.first_air_date)
    normalized_type := r.media_type }

/-- Lines 72-144: `get_tmdb_data(title, media_type, year, language)`,
with the provider interaction made explicit.  Returns `none` when the
API key is missing (line 74), when the request raises (lines 86-89,
`provider = none`), and when neither pass accepts; the fallback
(lines 136-142) fires only when the FIRST result has a truthy
`poster_path`. -/
def get_tmdb_data (apiKey : Bool) (title media_type : String)
    (year language : Option String)
    (provider : Option (List Candidate)) : Option Resolved :=
  if !apiKey then none
  else
    let year := stripYear year
    match provider with
    | none => none
    | some results =>
      match strictScan media_type year language results with
      | some res => some res
      | none =>
        match results with
        | [] => none
        | r :: _ =>
          if pyTruthy r.poster_path then some (fallbackNormalize r) else none

/-- Lines 147-158: `get_tmdb_recommendations(tmdb_id, tmdb_media_type,
count)`.  Python truthiness of `tmdb_id` makes both `None` and `0`
falsy; `provider = none` models a `requests.RequestException`; the body
returns `resp.get("results", [])[:count]`. -/
def get_tmdb_recommendations (apiKey : Bool) (tmdb_id : Option Nat)
    (tmdb_media_type : String) (count : Nat)
    (provider : Option (List Candidate)) : List Candidate :=
  if !apiKey || tmdb_id.getD 0 == 0 ||
      !(tmdb_media_type == "movie" || tmdb_media_type == "tv") then []
  else
    match provider with
    | none => []
    | some results => results.take count

/-- The cache key of the memoized `get_tmdb_data` (the
`st.cache_data` memo is keyed by the argument tuple). -/
structure TmdbKey where
  title : String
  media_type : String
  year : Option String
  language : Option String
  deriving Repr, DecidableEq

/-- The mutable application state the claims touch: the spreadsheet rows
and the two `st.cache_data` memo stores (`load_data` and
`get_tmdb_data`). -/
structure AppState where
  rows : List (List String)
  loadDataCache : Option (List (List String))
  tmdbCache : List (TmdbKey × Option Resolved)
  deriving Repr, DecidableEq

/-- Outcome of one submission of the add-movie form. -/
inductive SubmitOutcome where
  | missingFields
  | invalidYear
  | appended
  deriving Repr, DecidableEq

/-- Lines 213-222: the row appended on a successful submission
(user, movie, type, status, cleaned year, language, note, timestamp). -/
def rowData (user movie type_ status year language note timestamp : String) :
    List String :=
  [pyStrip user, pyStrip movie, type_, status, stripDigits (pyStrip year),
    pyUpper (pyStrip language), pyStrip note, timestamp]

/-- Lines 201-226: the add-movie form submit handler.
`clean_year = re.sub(r"\D", "", year.strip())`; blank user or title is
warned away (line 205); a non-blank year whose digit sequence is not 4
long is rejected (line 207); otherwise the row is appended and ONLY the
`load_data` cache is cleared (line 225) — `get_tmdb_data.clear()` is not
called here. -/
def add_movie_submit (st : AppState)
    (user movie type_ status year language note timestamp : String) :
    AppState × SubmitOutcome :=
  let clean_year := stripDigits (pyStrip year)
  if user == "" || movie == "" then (st, SubmitOutcome.missingFields)
  else if pyStrip year != "" && clean_year.length != 4 then
    (st, SubmitOutcome.invalidYear)
  else
    ({ st with
        rows := st.rows ++ [rowData user movie type_ status year language note timestamp]
        loadDataCache := none },
      SubmitOutcome.appended)

/-- Lines 164-169: `clear_caches()` clears both the `load_data` memo and
the `get_tmdb_data` memo. -/
def clear_caches (st : AppState) : AppState :=
  { st with loadDataCache := none, tmdbCache := [] }

/-- The submit handler takes one of exactly three branches: warn on
blank user or title, reject a bad year, or append and clear the load
cache. -/
theorem add_movie_submit_cases (st : AppState)
    (user movie type_ status year language note timestamp : String) :
    add_movie_submit st user movie type_ status year language note timestamp
        = (st, SubmitOutcome.missingFields) ∨
    add_movie_submit st user movie type_ status year language note timestamp
        = (st, SubmitOutcome.invalidYear) ∨
    add_movie_submit st user movie type_ status year language note timestamp
        = ({ st with
              rows := st.rows ++
                [rowData user movie type_ status year language note timestamp]
              loadDataCache := none }, SubmitOutcome.appended) := by
  simp only [add_movie_submit]
  split
  · exact Or.inl rfl
  · split
    · exact Or.inr (Or.inl rfl)
    · exact Or.inr (Or.inr rfl)

/-! Concrete provider candidates used as test fixtures. -/

/-- The 2003 Korean movie candidate of the Memories of Murder scenario. -/
def mMemories2003 : Candidate :=
  { media_type := some "movie", title := some "Memories of Murder", name := none,
    release_date := some "2003-05-02", first_air_date := none,
    original_language := some "ko", poster_path := some "/p2003.jpg" }

/-- The 2010 English movie candidate of the Memories of Murder scenario. -/
def mMemories2010 : Candidate :=
  { media_type := some "movie", title := some "Memories of Murder Remake", name := none,
    release_date := some "2010-01-01", first_air_date := none,
    original_language := some "en", poster_path := some "/p2010.jpg" }

/-- A candidate matching kind, year and language but carrying no poster. -/
def cNoPoster : Candidate :=
  { media_type := some "movie", title := some "Memories of Murder", name := none,
    release_date := some "2003-05-02", first_air_date := none,
    original_language := some "ko", poster_path := none }

/-- A tv candidate without a poster, first in the fallback scenario list. -/
def cAlphaTv : Candidate :=
  { media_type := some "tv", title := none, name := some "Alpha",
    release_date := none, first_air_date := some "1999-01-01",
    original_language := some "en", poster_path := none }

/-- A movie candidate with a poster but the wrong year, second in the
fallback scenario list. -/
def cAlphaMovie : Candidate :=
  { media_type := some "movie", title := some "Alpha", name := none,
    release_date := some "2005-03-03", first_air_date := none,
    original_language := some "en", poster_path := some "/alpha.jpg" }

/-- A tv candidate accepted by the strict pass in the C8 scenario. -/
def cDarkTv : Candidate :=
  { media_type := some "tv", title := none, name := some "Dark",
    release_date := none, first_air_date := some "2017-12-01",
    original_language := some "de", poster_path := some "/dark.jpg" }

/-- A person entry as returned by the combined multi-search, with a
truthy poster field so that only the media-type test can reject it. -/
def cPerson : Candidate :=
  { media_type := some "person", title := none, name := some "Bong Joon-ho",
    release_date := none, first_air_date := none,
    original_language := none, poster_path := some "/bjh.jpg" }

/-- A sample resolver-cache key. -/
def sampleKey : TmdbKey :=
  { title := "Alpha", media_type := "Movie", year := some "1999", language := some "EN" }

/-- A sample application state holding one memoized resolver entry. -/
def sampleState : AppState :=
  { rows := [], loadDataCache := some [], tmdbCache := [(sampleKey, none)] }

/-! Helper lemmas about the strict pass. -/

/-- A strictly accepted candidate has a truthy poster field. -/
theorem strictAccept_poster {media_type : String} {year language : Option String}
    {r : Candidate} (h : strictAccept media_type year language r = true) :
    pyTruthy r.poster_path = true := by
  simp only [strictAccept, Bool.and_eq_true] at h
  exact h.2

/-- A strictly accepted candidate is a movie entry or a tv entry. -/
theorem strictAccept_media {media_type : String} {year language : Option String}
    {r : Candidate} (h : strictAccept media_type year language r = true) :
    r.media_type = some "movie" ∨ r.media_type = some "tv" := by
  simp only [strictAccept, Bool.and_eq_true, Bool.or_eq_true, beq_iff_eq] at h
  exact h.1.1.1.1.1

/-- The strict normalization keeps the candidate itself. -/
theorem strictNormalize_cand (r : Candidate) : (strictNormalize r).cand = r := by
  unfold strictNormalize
  cases h : (r.media_type == some "movie") <;> simp [h]

/-- The strict normalization copies the raw media-type discriminator. -/
theorem strictNormalize_type (r : Candidate) :
    (strictNormalize r).normalized_type = r.media_type := by
  unfold strictNormalize
  cases h : (r.media_type == some "movie") <;> simp [h]

/-- The fallback normalization keeps the candidate itself. -/
theorem fallbackNormalize_cand (r : Candidate) : (fallbackNormalize r).cand = r := rfl

/-- Any output of the strict pass is the normalization of some accepted
member of the result list. -/
theorem strictScan_eq_some {media_type : String} {year language : Option String}
    {results : List Candidate} {res : Resolved}
    (h : strictScan media_type year language results = some res) :
    ∃ r, r ∈ results ∧ strictAccept media_type year language r = true ∧
      res = strictNormalize r := by
  induction results with
  | nil => simp [strictScan] at h
  | cons a rest ih =>
    simp only [strictScan] at h
    cases ha : strictAccept media_type year language a with
    | true =>
      rw [ha] at h
      simp only [if_true] at h
      exact ⟨a, List.mem_cons_self a rest, ha, (Option.some_inj.mp h).symm⟩
    | false =>
      rw [ha] at h
      simp only [Bool.false_eq_true, if_false] at h
      obtain ⟨r, hr, hacc, hres⟩ := ih h
      exact ⟨r, List.mem_cons_of_mem a hr, hacc, hres⟩

/-- When exactly one candidate in the list is strictly accepted, the
strict pass returns exactly that candidate, normalized. -/
theorem strictScan_of_unique {media_type : String} {year language : Option String}
    {results : List Candidate} {r : Candidate}
    (hmem : r ∈ results) (hacc : strictAccept media_type year language r = true)
    (huniq : ∀ s ∈ results, strictAccept media_type year language s = true → s = r) :
    strictScan media_type year language results = some (strictNormalize r) := by
  induction results with
  | nil => cases hmem
  | cons a rest ih =>
    simp only [strictScan]
    cases ha : strictAccept media_type year language a with
    | true =>
      have hav : a = r := huniq a (List.mem_cons_self a rest) ha
      simp [hav]
    | false =>
      simp only [Bool.false_eq_true, if_false]
      have hmem2 : r ∈ rest := by
        cases List.mem_cons.mp hmem with
        | inl h1 => rw [h1] at hacc; rw [hacc] at ha; cases ha
        | inr h1 => exact h1
      exact ih hmem2 (fun s hs hsacc => huniq s (List.mem_cons_of_mem a hs) hsacc)

/-- When no candidate has a truthy poster field, the strict pass
accepts nothing. -/
theorem strictScan_none_of_no_poster {media_type : String}
    {year language : Option String} {results : List Candidate}
    (h : ∀ r ∈ results, pyTruthy r.poster_path = false) :
    strictScan media_type year language results = none := by
  induction results with
  | nil => rfl
  | cons a rest ih =>
    have ha : strictAccept media_type year language a = false := by
      cases hacc : strictAccept media_type year language a with
      | false => rfl
      | true =>
        have hp := strictAccept_poster hacc
        rw [h a (List.mem_cons_self a rest)] at hp
        cases hp
    simp only [strictScan, ha, Bool.false_eq_true, if_false]
    exact ih (fun r hr => h r (List.mem_cons_of_mem a hr))

/-- Unfolding of the resolver on a successful request with the API key
present: strict pass first, then the head-of-list fallback. -/
theorem get_tmdb_data_some (title media_type : String)
    (year language : Option String) (results : List Candidate) :
    get_tmdb_data true title media_type year language (some results) =
      match strictScan media_type (stripYear year) language results with
      | some res => some res
      | none =>
        match results with
        | [] => none
        | r :: _ =>
          if pyTruthy r.poster_path then some (fallbackNormalize r) else none := rfl

/-! The claims. -/

/-- C1 counterexample: the query Alpha/Movie/1999/EN is strictly
rejected by both candidates, the second candidate carries a poster, yet
the resolver returns no match because the fallback only inspects the
FIRST provider result — contradicting the claim that the first
poster-bearing candidate (here the second entry) is returned. -/
theorem C1_counterexample :
    strictScan "Movie" (stripYear (some "1999")) (some "EN") [cAlphaTv, cAlphaMovie] = none ∧
    pyTruthy cAlphaMovie.poster_path = true ∧
    get_tmdb_data true "Alpha" "Movie" (some "1999") (some "EN")
      (some [cAlphaTv, cAlphaMovie]) = none := by decide

/-- C1 (amended): when the strict pass accepts nothing, the resolver
returns the FIRST provider result exactly when that first result has a
truthy poster reference; when the first result lacks a poster the
resolver returns no match, regardless of posters further down the
list. -/
theorem C1_fallback_head_only (title media_type : String)
    (year language : Option String) (r : Candidate) (rest : List Candidate)
    (hstrict : strictScan media_type (stripYear year) language (r :: rest) = none) :
    (pyTruthy r.poster_path = true →
      get_tmdb_data true title media_type year language (some (r :: rest)) =
        some (fallbackNormalize r)) ∧
    (pyTruthy r.poster_path = false →
      get_tmdb_data true title media_type year language (some (r :: rest)) = none) := by
  constructor <;> intro hp <;> rw [get_tmdb_data_some, hstrict] <;> simp [hp]

/-- C1 witness: concrete fallback acceptance of a poster-bearing head. -/
theorem C1_witness :
    get_tmdb_data true "Alpha" "Movie" (some "1999") (some "EN")
      (some [cAlphaMovie]) = some (fallbackNormalize cAlphaMovie) :=
  (C1_fallback_head_only "Alpha" "Movie" (some "1999") (some "EN")
    cAlphaMovie [] (by decide)).1 (by decide)

/-- C2: when exactly one provider candidate passes the strict test
(kind discriminator, year, uppercased language, poster) for a query
carrying a year and a language, the resolver returns exactly that
candidate in normalized form. -/
theorem C2_unique_strict_match (title media_type y l : String)
    (results : List Candidate) (r : Candidate)
    (hmem : r ∈ results)
    (hacc : strictAccept media_type (stripYear (some y)) (some l) r = true)
    (huniq : ∀ s ∈ results,
      strictAccept media_type (stripYear (some y)) (some l) s = true → s = r) :
    get_tmdb_data true title media_type (some y) (some l) (some results) =
      some (strictNormalize r) := by
  rw [get_tmdb_data_some, strictScan_of_unique hmem hacc huniq]

/-- C2 witness: the Memories of Murder scenario — with the 2010/EN
candidate listed first, the 2003/KO candidate is selected. -/
theorem C2_witness :
    get_tmdb_data true "Memories of Murder" "Movie" (some "2003") (some "KO")
      (some [mMemories2010, mMemories2003]) = some (strictNormalize mMemories2003) :=
  C2_unique_strict_match "Memories of Murder" "Movie" "2003" "KO"
    [mMemories2010, mMemories2003] mMemories2003 (by decide) (by decide) (by decide)

/-- C3 counterexample: for the query year "03" (not 4 digits) the
resolver still issues a provider search — the request is merely built
without the year parameter — and it even consumes the provider
response (here resolving via the fallback), contradicting the claim
that no network request is issued for such a query. -/
theorem C3_counterexample :
    get_tmdb_data_request true "Parasite" (some "03") =
      some { query := "Parasite", yearParam := none } ∧
    get_tmdb_data true "Parasite" "Movie" (some "03") none
      (some [mMemories2003]) = some (fallbackNormalize mMemories2003) := by decide

/-- C3 (amended): a non-4-digit year is rejected by the add-movie FORM
validation (no row appended, hence no provider call arises from that
submission), but the resolver itself, when invoked with such a year,
still issues a provider search request, merely omitting the year
parameter. -/
theorem C3_validation_vs_request (st : AppState)
    (user movie type_ status year language note timestamp : String)
    (title y : String)
    (hu : user ≠ "") (hm : movie ≠ "") (hy : pyStrip year ≠ "")
    (hlen : (stripDigits (pyStrip year)).length ≠ 4)
    (hvalid : isValidYear (pyStrip y) = false) :
    add_movie_submit st user movie type_ status year language note timestamp =
      (st, SubmitOutcome.invalidYear) ∧
    (searchRequest title (some y)).yearParam = none ∧
    get_tmdb_data_request true title (some y) = some (searchRequest title (some y)) := by
  refine ⟨?_, ?_, rfl⟩
  · have h1 : (user == "" || movie == "") = false := by simp [hu, hm]
    have h2 : (pyStrip year != "" && ((stripDigits (pyStrip year)).length != 4)) = true := by
      simp [hy, hlen]
    simp [add_movie_submit, h1, h2]
  · unfold searchRequest stripYear
    cases hyy : (y == "") with
    | true => simp [hyy]
    | false => simp [hyy, hvalid]

/-- C3 witness: the year "03" scenario — rejected by the form, yet a
(year-parameter-free) provider request would still be issued by the
resolver. -/
theorem C3_witness :
    add_movie_submit sampleState "Alice" "Alpha" "Movie" "Completed" "03" "EN" ""
      "2024-01-01 00:00:00" = (sampleState, SubmitOutcome.invalidYear) ∧
    (searchRequest "Alpha" (some "03")).yearParam = none ∧
    get_tmdb_data_request true "Alpha" (some "03") =
      some (searchRequest "Alpha" (some "03")) :=
  C3_validation_vs_request sampleState "Alice" "Alpha" "Movie" "Completed" "03" "EN" ""
    "2024-01-01 00:00:00" "Alpha" "03" (by decide) (by decide) (by decide)
    (by decide) (by decide)

/-- C4: when no candidate in the provider result list has a truthy
poster reference, the resolver returns no match — the strict pass skips
every posterless candidate and the fallback requires a poster on the
first result. -/
theorem C4_no_poster_no_match (apiKey : Bool) (title media_type : String)
    (year language : Option String) (results : List Candidate)
    (h : ∀ r ∈ results, pyTruthy r.poster_path = false) :
    get_tmdb_data apiKey title media_type year language (some results) = none := by
  cases apiKey with
  | false => rfl
  | true =>
    rw [get_tmdb_data_some, strictScan_none_of_no_poster h]
    cases results with
    | nil => rfl
    | cons a rest => simp [h a (List.mem_cons_self a rest)]

/-- C4 witness: a candidate matching title, kind, year and language but
without a poster still yields no match. -/
theorem C4_witness :
    get_tmdb_data true "Memories of Murder" "Movie" (some "2003") (some "KO")
      (some [cNoPoster]) = none :=
  C4_no_poster_no_match true "Memories of Murder" "Movie" (some "2003") (some "KO")
    [cNoPoster] (by decide)

/-- C5: the recommendations fetcher returns the empty list for any kind
outside movie/tv, returns at most count entries and only a prefix (in
provider order) of the provider results, and collapses any request
failure to the empty list. -/
theorem C5_recommendations_shape (apiKey : Bool) (tmdb_id : Option Nat)
    (tmdb_media_type : String) (count : Nat) (results : List Candidate)
    (provider : Option (List Candidate)) :
    (tmdb_media_type ≠ "movie" ∧ tmdb_media_type ≠ "tv" →
      get_tmdb_recommendations apiKey tmdb_id tmdb_media_type count provider = []) ∧
    (get_tmdb_recommendations apiKey tmdb_id tmdb_media_type count (some results)).length ≤ count ∧
    get_tmdb_recommendations apiKey tmdb_id tmdb_media_type count (some results) <+: results ∧
    get_tmdb_recommendations apiKey tmdb_id tmdb_media_type count none = [] := by
  refine ⟨?_, ?_, ?_, ?_⟩
  · intro h
    have hk : (tmdb_media_type == "movie" || tmdb_media_type == "tv") = false := by
      simp [h.1, h.2]
    simp [get_tmdb_recommendations, hk]
  · unfold get_tmdb_recommendations
    split
    · simp
    · exact List.length_take_le count results
  · unfold get_tmdb_recommendations
    split
    · exact List.nil_prefix
    · exact List.take_prefix count results
  · unfold get_tmdb_recommendations
    split
    · rfl
    · rfl

/-- C5 witness: kind person yields the empty list even with a live id,
a positive count and a nonempty provider response. -/
theorem C5_witness :
    get_tmdb_recommendations true (some 5) "person" 3 (some [mMemories2003]) = [] :=
  (C5_recommendations_shape true (some 5) "person" 3 [mMemories2003]
    (some [mMemories2003])).1 ⟨by decide, by decide⟩

/-- C6: a failure of the search request (the except branch around the
requests.get call, modelled as an absent provider response) makes the
resolver return no match, for every query, instead of propagating an
error. -/
theorem C6_request_failure_no_match (apiKey : Bool) (title media_type : String)
    (year language : Option String) :
    get_tmdb_data apiKey title media_type year language none = none := by
  cases apiKey <;> rfl

/-- C7 counterexample: the submit handler appends a row and clears only
the load cache — the pre-append resolver cache entry survives the
append, contradicting the claim that all cache entries are invalidated
wholesale. -/
theorem C7_counterexample :
    (add_movie_submit sampleState "Alice" "Beta" "Movie" "Completed" "2001" "EN" ""
      "2024-01-01 00:00:00").2 = SubmitOutcome.appended ∧
    ((add_movie_submit sampleState "Alice" "Beta" "Movie" "Completed" "2001" "EN" ""
      "2024-01-01 00:00:00").1).tmdbCache = [(sampleKey, none)] ∧
    [(sampleKey, (none : Option Resolved))] ≠ [] := by decide

/-- C7 (amended): appending a row via the form clears only the
load cache; the memoized resolver cache is preserved by the submit
handler and is emptied only by the explicit clear action. -/
theorem C7_append_keeps_tmdb_cache (st : AppState)
    (user movie type_ status year language note timestamp : String) :
    ((add_movie_submit st user movie type_ status year language note timestamp).1).tmdbCache
      = st.tmdbCache ∧
    ((add_movie_submit st user movie type_ status year language note timestamp).2
        = SubmitOutcome.appended →
      ((add_movie_submit st user movie type_ status year language note timestamp).1).loadDataCache
        = none) ∧
    (clear_caches st).tmdbCache = [] ∧ (clear_caches st).loadDataCache = none := by
  refine ⟨?_, ?_, rfl, rfl⟩
  · rcases add_movie_submit_cases st user movie type_ status year language note
      timestamp with h | h | h <;> rw [h]
  · intro happ
    rcases add_movie_submit_cases st user movie type_ status year language note
      timestamp with h | h | h <;> rw [h] at happ ⊢ <;> cases happ

/-- C7 witness: the preserved-cache statement at the sample state. -/
theorem C7_witness :
    ((add_movie_submit sampleState "Alice" "Beta" "Movie" "Completed" "2001" "EN" ""
      "t").1).tmdbCache = sampleState.tmdbCache ∧
    ((add_movie_submit sampleState "Alice" "Beta" "Movie" "Completed" "2001" "EN" ""
        "t").2 = SubmitOutcome.appended →
      ((add_movie_submit sampleState "Alice" "Beta" "Movie" "Completed" "2001" "EN" ""
        "t").1).loadDataCache = none) ∧
    (clear_caches sampleState).tmdbCache = [] ∧
    (clear_caches sampleState).loadDataCache = none :=
  C7_append_keeps_tmdb_cache sampleState "Alice" "Beta" "Movie" "Completed" "2001"
    "EN" "" "t"

/-- C8 counterexample: a tv candidate accepted by the strict pass is
returned with normalized type tv — the raw provider discriminator, not
a value mapped back to Movie or Show as the claim states. -/
theorem C8_counterexample :
    get_tmdb_data true "Dark" "Show" none none (some [cDarkTv]) =
      some (strictNormalize cDarkTv) ∧
    (strictNormalize cDarkTv).normalized_type = some "tv" ∧
    (strictNormalize cDarkTv).normalized_type ≠ some "Show" ∧
    (strictNormalize cDarkTv).normalized_type ≠ some "Movie" := by decide

/-- C8 (amended): every accepted result is the normalization the code
applies in the accepting pass (strict branch normalization or fallback
normalization of the accepted candidate), and its normalized type is
the raw provider discriminator of that candidate, unmapped. -/
theorem C8_normalization (apiKey : Bool) (title media_type : String)
    (year language : Option String) (results : List Candidate) (res : Resolved)
    (h : get_tmdb_data apiKey title media_type year language (some results) = some res) :
    res.normalized_type = res.cand.media_type ∧
    (res = strictNormalize res.cand ∨ res = fallbackNormalize res.cand) := by
  cases apiKey with
  | false => cases h
  | true =>
    rw [get_tmdb_data_some] at h
    cases hs : strictScan media_type (stripYear year) language results with
    | some r0 =>
      rw [hs] at h
      simp only [Option.some_inj] at h
      obtain ⟨r, -, -, hres⟩ := strictScan_eq_some hs
      have hc : res = strictNormalize r := by rw [← h, hres]
      constructor
      · rw [hc, strictNormalize_type, strictNormalize_cand]
      · left
        rw [hc, strictNormalize_cand]
    | none =>
      rw [hs] at h
      cases results with
      | nil => cases h
      | cons a rest =>
        cases hp : pyTruthy a.poster_path with
        | false => simp [hp] at h
        | true =>
          simp only [hp] at h
          simp only [if_pos, Option.some_inj] at h
          subst h
          exact ⟨rfl, Or.inr rfl⟩

/-- C8 witness: the amended normalization facts at the tv scenario. -/
theorem C8_witness :
    (strictNormalize cDarkTv).normalized_type = (strictNormalize cDarkTv).cand.media_type ∧
    (strictNormalize cDarkTv = strictNormalize (strictNormalize cDarkTv).cand ∨
      strictNormalize cDarkTv = fallbackNormalize (strictNormalize cDarkTv).cand) :=
  C8_normalization true "Dark" "Show" none none [cDarkTv]
    (strictNormalize cDarkTv) (by decide)

/-- C9: without an API key the resolver returns no match for every
input without building a request, and the recommendations fetcher
returns the empty list for every input. -/
theorem C9_no_api_key (title media_type : String) (year language : Option String)
    (provider recProvider : Option (List Candidate)) (tmdb_id : Option Nat)
    (tmdb_media_type : String) (count : Nat) :
    get_tmdb_data false title media_type year language provider = none ∧
    get_tmdb_data_request false title year = none ∧
    get_tmdb_recommendations false tmdb_id tmdb_media_type count recProvider = [] :=
  ⟨rfl, rfl, rfl⟩

/-- C10: a candidate whose discriminator is neither movie nor tv is
skipped by the strict pass before any year, language or poster test
(dropping it from the scan outright), and any candidate the strict pass
does return is a movie or tv entry. -/
theorem C10_strict_skips_non_media (media_type : String)
    (year language : Option String) (p : Candidate)
    (rest results : List Candidate) (res : Resolved)
    (hp : p.media_type ≠ some "movie" ∧ p.media_type ≠ some "tv") :
    strictScan media_type year language (p :: rest) =
      strictScan media_type year language rest ∧
    (strictScan media_type year language results = some res →
      res.cand.media_type = some "movie" ∨ res.cand.media_type = some "tv") := by
  constructor
  · have hacc : strictAccept media_type year language p = false := by
      unfold strictAccept
      simp [hp.1, hp.2]
    simp [strictScan, hacc]
  · intro h
    obtain ⟨r, _, hacc, hres⟩ := strictScan_eq_some h
    have hm := strictAccept_media hacc
    have hcand : res.cand = r := by rw [hres, strictNormalize_cand]
    rw [hcand]
    exact hm

/-- C10 witness: a person entry with a truthy poster field is skipped
even under kind Other. -/
theorem C10_witness :
    strictScan "Other" (some "1999") (some "EN") [cPerson, mMemories2003] =
      strictScan "Other" (some "1999") (some "EN") [mMemories2003] ∧
    (strictScan "Other" (some "1999") (some "EN") [cPerson, mMemories2003] =
        some (strictNormalize mMemories2003) →
      (strictNormalize mMemories2003).cand.media_type = some "movie" ∨
      (strictNormalize mMemories2003).cand.media_type = some "tv") :=
  C10_strict_skips_non_media "Other" (some "1999") (some "EN") cPerson
    [mMemories2003] [cPerson, mMemories2003] (strictNormalize mMemories2003)
    ⟨by decide, by decide⟩

end FilmyBuddy
